import Mathlib

/-!
Shallow embedding of the trojsten judge-client library (Python) in Lean 4.

The embedding covers the pieces of `judge_client` the verified claims talk
about: the error taxonomy and HTTP-error classification (`exceptions.py`,
`JudgeClient._handle_exception` in `client.py`), the enum decoding helpers
(`types.py`: `Verdict`, `TestingStatus`, `SubmitStatus`), the domain model
records (`types.py`), the response-handling parts of the client operations
(`submit`, `get_submit`, `get_task`, `update_task`, `create_task`,
`set_task_languages` in `client.py`) and the pagination iterator
(`JudgeClientIterator` in `util.py`).

Modelling conventions:
  * HTTP responses are values of `Judge.Response`: the status code, the
    `detail` field of the JSON body when the body parses to an object
    containing one (`json_detail`), and the raw body text.
  * Raising an exception is modelled by returning the exception value
    (`Option`/sum-like result types); Python `None` becomes `Option.none`.
  * The pydantic decoding of a response body into a model record is a
    parameter (`String → Except String _`): the client code under test
    treats it as a black box that either yields a value or raises.
  * The `_judge_client` back-reference stored on `Submit`/`Task` is used by
    the source only to read `judge_client.judge_url`, so we model it as
    `Option String` holding that base URL.
  * Python `str.upper()` is `Judge.upper` (per-character uppercasing).
  * `datetime` fields are carried as opaque ISO strings; `dict` payloads
    that the client never inspects are carried as association lists.
-/

namespace Judge

/-- Python `str.upper()` (ASCII case mapping, applied per character). -/
def upper (s : String) : String := String.mk (s.data.map Char.toUpper)

/-!
## exceptions.py

`JudgeError` subclasses carry a single `detail` string;
`ProtocolError` subclasses carry a `message` and the raw `protocol` text.
The exceptions the client can raise from `_handle_exception` are the three
detail-carrying ones.
-/

/-- The detail-carrying exceptions of `exceptions.py` that
`JudgeClient._handle_exception` can raise. -/
inductive JudgeException where
  | UnknownLanguageError (detail : String)
  | NotFoundError (detail : String)
  | JudgeConnectionError (detail : String)
deriving DecidableEq

/-!
## client.py: `_handle_exception`
-/

/-- An HTTP response as seen by the client: status code, the `detail`
field of the JSON body when present (`none` when the body does not parse
to an object with a `"detail"` key), and the raw body text. -/
structure Response where
  status : Nat
  json_detail : Option String
  text : String
deriving DecidableEq

/-- The default detail string built in `_handle_exception`:
`f"Failed to connect to judge system ({self.judge_url}{url})"`. -/
def defaultDetail (judge_url url : String) : String :=
  "Failed to connect to judge system (" ++ judge_url ++ url ++ ")"

/-- `JudgeClient._known_exceptions` as a lookup with default
(`dict.get(detail, JudgeConnectionError)`): maps a detail string to the
exception constructor to raise. -/
def known_exceptions_get (detail : String) : String → JudgeException :=
  if detail = "filename: Could not detect language." then
    JudgeException.UnknownLanguageError
  else if detail = "Not Found" then
    JudgeException.NotFoundError
  else
    JudgeException.JudgeConnectionError

/-- `requests.Response.raise_for_status` raises `HTTPError` exactly for
status codes in `[400, 600)`. -/
def raise_for_status (status : Nat) : Bool :=
  decide (400 ≤ status ∧ status < 600)

/-- `JudgeClient._handle_exception(url, response)`: returns the exception
raised for the response, or `none` when no exception is raised. -/
def handle_exception (judge_url url : String) (r : Response) : Option JudgeException :=
  if raise_for_status r.status then
    let detail := r.json_detail.getD (defaultDetail judge_url url)
    some (known_exceptions_get detail detail)
  else
    none

/-!
## types.py: enums
-/

/-- `SubmitStatus` members (`types.py`). -/
inductive SubmitStatus where
  | QUEUED
  | FINISHED
  | FAILED
deriving DecidableEq

/-- The integer `status` payload of each `SubmitStatus` member. -/
def SubmitStatus.status : SubmitStatus → Nat
  | .QUEUED => 0
  | .FINISHED => 1
  | .FAILED => 2

/-- `TestingStatus` members (`types.py`). -/
inductive TestingStatus where
  | WAITING
  | PULLING_IMAGE
  | MEASURING_TIMELIMIT
  | TESTING
  | DONE
  | UNKNOWN
deriving DecidableEq

/-- The Python enum member name (`_name_`) of each `TestingStatus` member. -/
def TestingStatus.pyName : TestingStatus → String
  | .WAITING => "WAITING"
  | .PULLING_IMAGE => "PULLING_IMAGE"
  | .MEASURING_TIMELIMIT => "MEASURING_TIMELIMIT"
  | .TESTING => "TESTING"
  | .DONE => "DONE"
  | .UNKNOWN => "UNKNOWN"

/-- The string `status` payload of each `TestingStatus` member. -/
def TestingStatus.statusCode : TestingStatus → String
  | .WAITING => "waiting"
  | .PULLING_IMAGE => "pulling_image"
  | .MEASURING_TIMELIMIT => "measuring_timelimit"
  | .TESTING => "testing"
  | .DONE => "done"
  | .UNKNOWN => "unknown"

/-- The members of `TestingStatus` in definition order. -/
def TestingStatus.members : List TestingStatus :=
  [.WAITING, .PULLING_IMAGE, .MEASURING_TIMELIMIT, .TESTING, .DONE, .UNKNOWN]

/-- `TestingStatus._missing_(value)` for a string value: uppercase the
value, return the first member whose `_name_.upper()` equals it, falling
back to `UNKNOWN`. -/
def TestingStatus.missing (value : String) : TestingStatus :=
  let v := upper value
  (TestingStatus.members.find? (fun m => upper m.pyName == v)).getD .UNKNOWN

/-- `TestingStatus.__eq__` against a string: case-insensitive comparison
of the member name with the string. -/
def TestingStatus.eqStr (m : TestingStatus) (value : String) : Bool :=
  upper m.pyName == upper value

/-- `Verdict` colors (`types.py`, the `color` payload). -/
inductive VerdictColor where
  | green
  | yellow
  | orange
  | red
  | gray
deriving DecidableEq

/-- `Verdict` members (`types.py`). -/
inductive Verdict where
  | OK
  | WA
  | TLE
  | EXC
  | PRV
  | IGN
  | MEM
  | CEX
  | SEX
  | POK
  | CONNERR
deriving DecidableEq

/-- The Python enum member name (`_name_`) of each `Verdict` member. -/
def Verdict.pyName : Verdict → String
  | .OK => "OK"
  | .WA => "WA"
  | .TLE => "TLE"
  | .EXC => "EXC"
  | .PRV => "PRV"
  | .IGN => "IGN"
  | .MEM => "MEM"
  | .CEX => "CEX"
  | .SEX => "SEX"
  | .POK => "POK"
  | .CONNERR => "CONNERR"

/-- The string `code` payload of each `Verdict` member. -/
def Verdict.code : Verdict → String
  | .OK => "OK"
  | .WA => "WA"
  | .TLE => "TLE"
  | .EXC => "EXC"
  | .PRV => "PRV"
  | .IGN => "IGN"
  | .MEM => "MEM"
  | .CEX => "CEX"
  | .SEX => "SEX"
  | .POK => "POK"
  | .CONNERR => "CONNERR"

/-- The `color` payload of each `Verdict` member. -/
def Verdict.color : Verdict → VerdictColor
  | .OK => .green
  | .WA => .red
  | .TLE => .orange
  | .EXC => .orange
  | .PRV => .orange
  | .IGN => .gray
  | .MEM => .orange
  | .CEX => .orange
  | .SEX => .orange
  | .POK => .yellow
  | .CONNERR => .red

/-- The members of `Verdict` in definition order. -/
def Verdict.members : List Verdict :=
  [.OK, .WA, .TLE, .EXC, .PRV, .IGN, .MEM, .CEX, .SEX, .POK, .CONNERR]

/-- `Verdict._missing_(value)` for a string value: uppercase the value and
return the first member whose `_name_.upper()` equals it, or `none`
(which makes the enum lookup, and hence decoding, fail). -/
def Verdict.missing (value : String) : Option Verdict :=
  let v := upper value
  Verdict.members.find? (fun m => upper m.pyName == v)

/-- `Verdict.__eq__` against a string: case-insensitive comparison of the
member name with the string. -/
def Verdict.eqStr (m : Verdict) (value : String) : Bool :=
  upper m.pyName == upper value

/-- `Verdict.is_ok(verdict)`: true exactly for `OK` and `POK`. -/
def Verdict.is_ok (verdict : Verdict) : Bool :=
  verdict = Verdict.OK ∨ verdict = Verdict.POK

end Judge

namespace Judge

/-!
## types.py: data model records
-/

/-- `Stats` (`types.py`): stats of a running process. -/
structure Stats where
  max_rss : Int
  cpu_time : Int
  exit_code : Int
  real_time : Int
  timeouted : Bool

/-- `TestResult` (`types.py`). `extra_data` (`dict[Any, Any]`) is carried
as an opaque association list. -/
structure TestResult where
  log : String
  name : String
  batch : String
  verdict : Verdict
  score : Float
  stats : Option Stats
  extra_data : List (String × String) := []

/-- `Limits` (`types.py`). `file_access` maps paths to writability. -/
structure Limits where
  cpu_limit_ms : Int
  wall_limit_ms : Int
  memory_limit_kb : Option Int
  file_access : List (String × Bool)
  file_size : Option Int
  stack_size : Int
  thread_limit : Option Int

/-- `Protocol` (`types.py`). -/
structure Protocol where
  tests : Option (List TestResult) := none
  log : Option String := none
  final_verdict : Option Verdict := none
  final_score : Option Float := none
  language : Option String := none
  compile_stats : Option Stats := none
  compile_limits : Option Limits := none
  runtime_limits : Option Limits := none

/-- `Submit` (`types.py`). `testing_status` is `TestingStatus | str` in the
source, hence a sum here; `datetime` fields are opaque ISO strings; the
`_judge_client` private back-reference is modelled by the producing
client's `judge_url` (the only attribute the source reads from it). -/
structure Submit where
  public_id : String
  protocol_key : String
  external_user_id : String
  status : SubmitStatus
  testing_status : TestingStatus ⊕ String
  task : String
  «namespace» : String
  language : String
  protocol : Option Protocol := none
  worker : String
  last_queued_at : String
  created_at : String
  judge_client : Option String := none

/-- `Submit.public_protocol_url` (`types.py`): raises `ValueError` when the
back-reference is unset, otherwise returns
`f"{judge_client.judge_url}/public/protocol/{protocol_key}/"`.
`Except.error` carries the `ValueError` message. -/
def Submit.public_protocol_url (s : Submit) : Except String String :=
  match s.judge_client with
  | none => .error "JudgeClient is not set. Did you forget to set it?"
  | some judge_url => .ok (judge_url ++ "/public/protocol/" ++ s.protocol_key ++ "/")

/-- `Submit.public_embed_protocol_url` (`types.py`). -/
def Submit.public_embed_protocol_url (s : Submit) : Except String String :=
  match s.judge_client with
  | none => .error "JudgeClient is not set. Did you forget to set it?"
  | some judge_url => .ok (judge_url ++ "/public/protocol/" ++ s.protocol_key ++ "/embed/")

/-- `TaskShort` (`types.py`). -/
structure TaskShort where
  name : String
  «namespace» : String

/-- `TaskLanguage` (`types.py`): per-(task, language) settings.
`config_overrides` (`dict`) is carried as an opaque association list. -/
structure TaskLanguage where
  id : Int := -1
  language : String := ""
  language_id : String := ""
  image : String := ""
  cpu_limit : Option Int := none
  wall_limit : Option Int := none
  relative_time_limit : Option Float := none
  relative_measurement_solution : String := ""
  relative_measurement_task_language : Option Int := none
  memory_limit : Option Int := none
  config_overrides : List (String × String) := []

/-- `Task` (`types.py`), extending `TaskShort`. `config` (`dict`) is
carried as an opaque association list; `_judge_client` is modelled by the
producing client's `judge_url` as for `Submit`. -/
structure Task extends TaskShort where
  id : Int := -1
  public_submit_key : Option String := none
  version : String := ""
  default_limit_language : Option String := none
  config : List (String × String) := []
  preparer : String := ""
  loader : String := ""
  decider : String := ""
  executor : String := ""
  grader : String := ""
  mixer : String := ""
  image : String := ""
  file_readonly_access : List String := []
  file_readwrite_access : List String := []
  file_size : Option Int := none
  stack_size : Option Int := none
  thread_limit : Option Int := none
  network : Bool := false
  languages : List TaskLanguage := []
  judge_client : Option String := none

/-- `Task.public_submit_url` (`types.py`): raises `ValueError` when the
back-reference is unset; returns `None` when `public_submit_key` is
`None`; otherwise returns
`f"{judge_client.judge_url}/public/submit/{public_submit_key}/"`. -/
def Task.public_submit_url (t : Task) : Except String (Option String) :=
  match t.judge_client with
  | none => .error "JudgeClient is not set. Did you forget to set it?"
  | some judge_url =>
    match t.public_submit_key with
    | none => .ok none
    | some key => .ok (some (judge_url ++ "/public/submit/" ++ key ++ "/"))

/-!
## client.py: response handling of `submit` / `get_submit`

The operation first runs `_handle_exception` on the response; on success it
decodes the body into a `Submit` (`Submit(**response.json())`), stores the
back-reference and returns it; any decoding exception is replaced by
`ProtocolCorruptedError("Failed to parse response from the judge system",
response.text)`.
-/

/-- Outcome of `JudgeClient.submit` / `JudgeClient.get_submit`. -/
inductive SubmitOutcome where
  | ok (s : Submit)
  | judgeError (e : JudgeException)
  | protocolCorrupted (message : String) (protocol : String)

/-- Response handling of `JudgeClient.submit` (`client.py` lines 129-150):
`decodeSubmit` stands for `Submit(**response.json())` (json parse plus
pydantic validation), returning the raised exception in `Except.error`. -/
def submit_response (judge_url url : String)
    (decodeSubmit : String → Except String Submit) (r : Response) : SubmitOutcome :=
  match handle_exception judge_url url r with
  | some e => .judgeError e
  | none =>
    match decodeSubmit r.text with
    | .ok ret => .ok { ret with judge_client := some judge_url }
    | .error _ => .protocolCorrupted "Failed to parse response from the judge system" r.text

/-- Response handling of `JudgeClient.get_submit` (`client.py` lines
163-176); identical guard structure to `submit`. -/
def get_submit_response (judge_url url : String)
    (decodeSubmit : String → Except String Submit) (r : Response) : SubmitOutcome :=
  match handle_exception judge_url url r with
  | some e => .judgeError e
  | none =>
    match decodeSubmit r.text with
    | .ok ret => .ok { ret with judge_client := some judge_url }
    | .error _ => .protocolCorrupted "Failed to parse response from the judge system" r.text

/-!
## client.py: response handling of `get_task` / `update_task` / `create_task`

These three build `Task(**response.json())` with no `try/except`: a
decoding exception propagates unchanged (`decodeError` carries it).
-/

/-- Outcome of the task-returning operations. -/
inductive TaskOutcome where
  | ok (t : Task)
  | judgeError (e : JudgeException)
  | protocolCorrupted (message : String) (protocol : String)
  | decodeError (e : String)

/-- Response handling of `JudgeClient.get_task` (`client.py` lines
335-342): no decoding guard, the pydantic exception propagates. -/
def get_task_response (judge_url url : String)
    (decodeTask : String → Except String Task) (r : Response) : TaskOutcome :=
  match handle_exception judge_url url r with
  | some e => .judgeError e
  | none =>
    match decodeTask r.text with
    | .ok ret => .ok { ret with judge_client := some judge_url }
    | .error e => .decodeError e

/-- Response handling of `JudgeClient.update_task` (`client.py` lines
356-364): no decoding guard, the pydantic exception propagates. -/
def update_task_response (judge_url url : String)
    (decodeTask : String → Except String Task) (r : Response) : TaskOutcome :=
  match handle_exception judge_url url r with
  | some e => .judgeError e
  | none =>
    match decodeTask r.text with
    | .ok ret => .ok { ret with judge_client := some judge_url }
    | .error e => .decodeError e

/-- Response handling of `JudgeClient.create_task` (`client.py` lines
390-398): no decoding guard, the pydantic exception propagates. -/
def create_task_response (judge_url url : String)
    (decodeTask : String → Except String Task) (r : Response) : TaskOutcome :=
  match handle_exception judge_url url r with
  | some e => .judgeError e
  | none =>
    match decodeTask r.text with
    | .ok ret => .ok { ret with judge_client := some judge_url }
    | .error e => .decodeError e

/-!
## client.py: `set_task_languages`

`set_task_languages` first fetches the current task languages (a GET), then
issues the mutating calls; we model the sequence of mutating calls it
issues given the fetched `current` list and the `desired` argument.
-/

/-- A mutating task-language API call issued by `set_task_languages`:
`add_task_language`, `update_task_language` (both POST the full
`TaskLanguage`), or `delete_task_language` (DELETE by language id). -/
inductive ApiCall where
  | add («namespace» task : String) (lang : TaskLanguage)
  | update («namespace» task : String) (lang : TaskLanguage)
  | delete («namespace» task : String) (language_id : String)

/-- Whether an `ApiCall` is an `add`. -/
def ApiCall.isAdd : ApiCall → Bool
  | .add .. => true
  | _ => false

/-- Whether an `ApiCall` is an `update`. -/
def ApiCall.isUpdate : ApiCall → Bool
  | .update .. => true
  | _ => false

/-- Whether an `ApiCall` is a `delete`. -/
def ApiCall.isDelete : ApiCall → Bool
  | .delete .. => true
  | _ => false

/-- Whether an `ApiCall` is an `add` or an `update`. -/
def ApiCall.isAddOrUpdate (c : ApiCall) : Bool :=
  c.isAdd || c.isUpdate

/-- The sequence of mutating calls issued by
`JudgeClient.set_task_languages` (`client.py` lines 542-573), given the
`current` list returned by `get_task_languages` and the `desired`
argument (`task_languages`): for each desired language, add it when its
`language_id` is not among the current ids, else update it; then delete
every current language whose `language_id` is not among the desired ids. -/
def set_task_languages (ns task : String)
    (current desired : List TaskLanguage) : List ApiCall :=
  let current_language_ids := current.map (fun language => language.language_id)
  let adds_updates := desired.map (fun lang =>
    if current_language_ids.contains lang.language_id then
      ApiCall.update ns task lang
    else
      ApiCall.add ns task lang)
  let new_language_ids := desired.map (fun language => language.language_id)
  let deletes :=
    (current.filter (fun lang => !(new_language_ids.contains lang.language_id))).map
      (fun lang => ApiCall.delete ns task lang.language_id)
  adds_updates ++ deletes

end Judge

namespace Judge

/-!
## util.py: `JudgeClientIterator`

The iterator's mutable fields are `__offset`, `__data_offset`, `__count`
(integer, `-1` = not yet learned) and `__data` (the current page).
`__fetch_data(offset)` returns `(count, items)`; fetch calls performed by
an operation are reported as the list of offsets they were issued at.
`__next__` raises `StopIteration` at exhaustion and — because it indexes
`self.__data[self.__data_offset]` unconditionally after a refetch — raises
`IndexError` when the fetched page is empty.
-/

/-- The page-fetch callback `(offset) -> (count, items)`. -/
abbrev Fetch (α : Type) := Nat → Nat × List α

/-- The mutable state of a `JudgeClientIterator`. -/
structure IterState (α : Type) where
  offset : Nat
  data_offset : Nat
  count : Int
  data : List α
deriving DecidableEq

namespace JudgeClientIterator

/-- `JudgeClientIterator.__init__(offset, fetch_data)`: pure construction,
no fetch call is performed. -/
def init (offset : Nat) : IterState α :=
  { offset := offset, data_offset := 0, count := -1, data := [] }

/-- `JudgeClientIterator.__len__`: on the first size query
(`count == -1`) fetch at the current offset and cache count and data;
afterwards return the cached count without fetching. Returns the length,
the new state and the offsets fetched at. -/
def length_query (fetch : Fetch α) (s : IterState α) : Nat × IterState α × List Nat :=
  if s.count = -1 then
    let cd := fetch s.offset
    (cd.1, { s with count := (cd.1 : Int), data := cd.2 }, [s.offset])
  else
    (s.count.toNat, s, [])

/-- The three ways a `__next__` call can end: yield an item, raise
`StopIteration`, or raise `IndexError` (empty page indexed). -/
inductive NextOutcome (α : Type) where
  | item : α → NextOutcome α
  | stop : NextOutcome α
  | indexError : NextOutcome α
deriving DecidableEq

/-- The page-refill block of `__next__`: when the page is exhausted
(`self.__data_offset >= len(self.__data)`), fetch at the current offset,
replacing count, data and resetting the page cursor. -/
def refill (fetch : Fetch α) (s : IterState α) : IterState α × List Nat :=
  if s.data_offset ≥ s.data.length then
    ({ s with
        count := ((fetch s.offset).1 : Int)
        data := (fetch s.offset).2
        data_offset := 0 },
      [s.offset])
  else
    (s, [])

/-- The tail of `__next__` after the refill block:
`row = self.__data[self.__data_offset]` (raising `IndexError` when out of
range), then advance both offsets and return the row. -/
def emit (s1 : IterState α) (log : List Nat) : NextOutcome α × IterState α × List Nat :=
  match s1.data[s1.data_offset]? with
  | some row =>
    (.item row, { s1 with offset := s1.offset + 1, data_offset := s1.data_offset + 1 }, log)
  | none => (.indexError, s1, log)

/-- `JudgeClientIterator.__next__`: stop when the offset has reached a
learned count; otherwise run the refill block and then index the page and
advance. Returns the outcome, the new state and the offsets fetched at. -/
def next (fetch : Fetch α) (s : IterState α) : NextOutcome α × IterState α × List Nat :=
  if (s.offset : Int) ≥ s.count ∧ s.count ≠ -1 then
    (.stop, s, [])
  else
    emit (refill fetch s).1 (refill fetch s).2

/-- How a full consumption loop ended: `StopIteration` (clean), a raised
`IndexError` (crash), or the step budget ran out. -/
inductive RunEnd where
  | clean
  | crash
  | fuelOut
deriving DecidableEq

/-- The observable trace of consuming an iterator: items yielded in order,
fetch offsets in order, and how the loop ended. -/
structure RunTrace (α : Type) where
  items : List α
  fetches : List Nat
  ending : RunEnd
deriving DecidableEq

/-- Consume the iterator by repeated `__next__` until `StopIteration` or
`IndexError`, recording the trace; `fuel` bounds the number of steps. -/
def runIter (fetch : Fetch α) : IterState α → Nat → RunTrace α
  | _, 0 => { items := [], fetches := [], ending := .fuelOut }
  | s, fuel + 1 =>
    match next fetch s with
    | (.stop, _, log) => { items := [], fetches := log, ending := .clean }
    | (.indexError, _, log) => { items := [], fetches := log, ending := .crash }
    | (.item a, s2, log) =>
      let t := runIter fetch s2 fuel
      { items := a :: t.items, fetches := log ++ t.fetches, ending := t.ending }

end JudgeClientIterator

/-- The fetch callback the client builds for the list endpoints
(`get_submits` / `get_tasks`): the server holds the result list `L` and
answers a fetch at `offset` with the total count and the page
`L[offset : offset + batch_size]`. -/
def serverFetch (L : List α) (batch_size : Nat) : Fetch α :=
  fun offset => (L.length, (L.drop offset).take batch_size)

end Judge

namespace Judge

/-!
## Helper lemmas
-/

/-- `_handle_exception` raises nothing when `raise_for_status` passes. -/
theorem handle_exception_eq_none (judge_url url : String) (r : Response)
    (h : r.status < 400 ∨ 600 ≤ r.status) :
    handle_exception judge_url url r = none := by
  have hb : raise_for_status r.status = false := by
    unfold raise_for_status
    simp only [decide_eq_false_iff_not, not_and, not_lt]
    omega
  unfold handle_exception
  rw [hb]
  rfl

/-- For every `Verdict` member the enum name and the `code` payload are
the same string. -/
theorem Verdict.pyName_eq_code (m : Verdict) : m.pyName = m.code := by
  cases m <;> rfl

/-- The generic detail string never collides with either key of the
`_known_exceptions` table (it always starts with `'F'`). -/
theorem defaultDetail_ne_key (judge_url url : String) :
    defaultDetail judge_url url ≠ "filename: Could not detect language." ∧
    defaultDetail judge_url url ≠ "Not Found" := by
  constructor <;> intro h <;>
  · have hd := congrArg String.data h
    rw [defaultDetail] at hd
    simp only [String.data_append] at hd
    simp [List.cons_append] at hd

/-!
## C1
-/

/-- C1 (amended): for every HTTP response with status in `[400, 600)`
(the statuses `raise_for_status` rejects), the raised error is determined
by matching the parsed detail string against the static
`_known_exceptions` table: detail `"Not Found"` raises `NotFoundError`,
detail `"filename: Could not detect language."` raises
`UnknownLanguageError`, any other parsed detail raises
`JudgeConnectionError` carrying that detail, and a response without a
parseable detail raises `JudgeConnectionError` carrying the generic
message embedding the request path. Statuses outside `[400, 600)` raise
nothing. -/
theorem spec_C1 (judge_url url : String) (r : Response) :
    (raise_for_status r.status = true →
      (r.json_detail = some "Not Found" →
        handle_exception judge_url url r =
          some (.NotFoundError "Not Found")) ∧
      (r.json_detail = some "filename: Could not detect language." →
        handle_exception judge_url url r =
          some (.UnknownLanguageError "filename: Could not detect language.")) ∧
      (∀ d, r.json_detail = some d →
        d ≠ "Not Found" → d ≠ "filename: Could not detect language." →
        handle_exception judge_url url r = some (.JudgeConnectionError d)) ∧
      (r.json_detail = none →
        handle_exception judge_url url r =
          some (.JudgeConnectionError (defaultDetail judge_url url)))) ∧
    (raise_for_status r.status = false →
      handle_exception judge_url url r = none) := by
  constructor
  · intro hrs
    refine ⟨?_, ?_, ?_, ?_⟩
    · intro h
      simp [handle_exception, hrs, h, known_exceptions_get]
    · intro h
      simp [handle_exception, hrs, h, known_exceptions_get]
    · intro d h hd1 hd2
      simp [handle_exception, hrs, h, known_exceptions_get, hd1, hd2]
    · intro h
      have hne := defaultDetail_ne_key judge_url url
      unfold handle_exception
      rw [hrs, if_pos rfl, h]
      simp only [Option.getD_none]
      unfold known_exceptions_get
      rw [if_neg hne.1, if_neg hne.2]
  · intro hrs
    unfold handle_exception
    rw [hrs]
    rfl

/-- C1 counterexample to the claim as stated: a 500 response whose body
parses to detail `"oops"` raises `JudgeConnectionError "oops"`, which
does not carry the request path (the path is not a substring of the
detail); and a 302 response is non-2xx yet raises nothing at all. -/
theorem spec_C1_cex :
    handle_exception "https://judge.ksp.sk" "/api/submits/"
        { status := 500, json_detail := some "oops", text := "" } =
      some (.JudgeConnectionError "oops") ∧
    ¬ ("/api/submits/".data <:+: "oops".data) ∧
    handle_exception "https://judge.ksp.sk" "/api/submits/"
        { status := 302, json_detail := none, text := "" } = none := by
  refine ⟨by decide, by decide, by decide⟩

/-- C1 witness: the amended theorem evaluated at concrete responses. -/
theorem spec_C1_witness :
    handle_exception "J" "/u" { status := 404, json_detail := some "Not Found", text := "" } =
      some (.NotFoundError "Not Found") ∧
    handle_exception "J" "/u"
        { status := 400, json_detail := some "filename: Could not detect language.", text := "" } =
      some (.UnknownLanguageError "filename: Could not detect language.") ∧
    handle_exception "J" "/u" { status := 500, json_detail := none, text := "" } =
      some (.JudgeConnectionError (defaultDetail "J" "/u")) ∧
    handle_exception "J" "/u" { status := 200, json_detail := none, text := "" } = none :=
  ⟨((spec_C1 "J" "/u" { status := 404, json_detail := some "Not Found", text := "" }).1
      (by decide)).1 rfl,
   ((spec_C1 "J" "/u"
      { status := 400, json_detail := some "filename: Could not detect language.", text := "" }).1
      (by decide)).2.1 rfl,
   ((spec_C1 "J" "/u" { status := 500, json_detail := none, text := "" }).1
      (by decide)).2.2.2 rfl,
   (spec_C1 "J" "/u" { status := 200, json_detail := none, text := "" }).2 (by decide)⟩

end Judge

namespace Judge

/-!
## C5
-/

/-- C5: a raw string matching a known `Verdict` code case-insensitively
decodes (via `_missing_`) to that member, and the member compares equal
to the string case-insensitively; a string matching no code makes
`Verdict` decoding fail (`none`), whereas `TestingStatus` decoding of an
unmatched string yields `UNKNOWN` instead of failing. The first two
conjuncts record that the member list is exhaustive and that enum names
coincide with the codes (for `TestingStatus`, up to case), so matching on
names is matching on codes. -/
theorem spec_C5 :
    (∀ m : Verdict, m ∈ Verdict.members) ∧
    ((∀ m : Verdict, m.pyName = m.code) ∧
      ∀ m : TestingStatus, upper m.pyName = upper m.statusCode) ∧
    (∀ (s : String) (m : Verdict), upper s = upper m.code →
      Verdict.missing s = some m ∧ Verdict.eqStr m s = true) ∧
    (∀ s : String, (∀ m ∈ Verdict.members, upper s ≠ upper m.code) →
      Verdict.missing s = none) ∧
    (∀ s : String, (∀ m ∈ TestingStatus.members, upper s ≠ upper m.pyName) →
      TestingStatus.missing s = .UNKNOWN) := by
  refine ⟨?_, ⟨?_, ?_⟩, ?_, ?_, ?_⟩
  · intro m
    cases m <;> decide
  · exact Verdict.pyName_eq_code
  · intro m
    cases m <;> decide
  · intro s m h
    cases m <;>
    · simp only [Verdict.missing, Verdict.eqStr]
      rw [h]
      decide
  · intro s h
    simp only [Verdict.missing]
    rw [List.find?_eq_none]
    intro m hm
    have hne := h m hm
    rw [Verdict.pyName_eq_code]
    simp only [beq_iff_eq]
    exact fun he => hne he.symm
  · intro s h
    simp only [TestingStatus.missing]
    have hfind : TestingStatus.members.find? (fun m => upper m.pyName == upper s) = none := by
      rw [List.find?_eq_none]
      intro m hm
      have hne := h m hm
      simp only [beq_iff_eq]
      exact fun he => hne he.symm
    rw [hfind]
    rfl

/-- C5 witness: the theorem evaluated at `"ok"` (a known code, lowercase)
and at `"xyz"` (matching no code). -/
theorem spec_C5_witness :
    (Verdict.missing "ok" = some .OK ∧ Verdict.eqStr .OK "ok" = true) ∧
    Verdict.missing "xyz" = none ∧
    TestingStatus.missing "xyz" = .UNKNOWN :=
  ⟨spec_C5.2.2.1 "ok" .OK (by decide),
   spec_C5.2.2.2.1 "xyz" (by decide),
   spec_C5.2.2.2.2 "xyz" (by decide)⟩

end Judge

namespace Judge

/-!
## C10
-/

/-- C10: the derived-URL accessors fail rather than return a value when
the back-reference to the producing client is unset
(`Submit.public_protocol_url` and `Task.public_submit_url` raise
`ValueError` when `_judge_client` is `None`); with the client reference
set, `Task.public_submit_url` returns `None` exactly when
`public_submit_key` is `None`, and otherwise the base endpoint joined
with the key. -/
theorem spec_C10 (s : Submit) (t : Task) :
    (s.judge_client = none →
      s.public_protocol_url = .error "JudgeClient is not set. Did you forget to set it?") ∧
    (t.judge_client = none →
      t.public_submit_url = .error "JudgeClient is not set. Did you forget to set it?") ∧
    (∀ ju, t.judge_client = some ju →
      ((t.public_submit_url = .ok none ↔ t.public_submit_key = none) ∧
       (∀ key, t.public_submit_key = some key →
         t.public_submit_url = .ok (some (ju ++ "/public/submit/" ++ key ++ "/"))))) := by
  refine ⟨?_, ?_, ?_⟩
  · intro h
    simp [Submit.public_protocol_url, h]
  · intro h
    simp [Task.public_submit_url, h]
  · intro ju h
    constructor
    · cases hk : t.public_submit_key <;> simp [Task.public_submit_url, h, hk]
    · intro key hk
      simp [Task.public_submit_url, h, hk]

/-- C10 witness: the theorem evaluated at concrete `Submit`/`Task`
values with the back-reference unset and set. -/
theorem spec_C10_witness :
    Submit.public_protocol_url
        { public_id := "p", protocol_key := "pk", external_user_id := "u",
          status := .QUEUED, testing_status := .inl .WAITING, task := "t",
          «namespace» := "ns", language := "", worker := "",
          last_queued_at := "", created_at := "" } =
      .error "JudgeClient is not set. Did you forget to set it?" ∧
    Task.public_submit_url { name := "t", «namespace» := "ns" } =
      .error "JudgeClient is not set. Did you forget to set it?" ∧
    Task.public_submit_url { name := "t", «namespace» := "ns", judge_client := some "J" } =
      .ok none ∧
    Task.public_submit_url
        { name := "t", «namespace» := "ns", public_submit_key := some "k",
          judge_client := some "J" } =
      .ok (some ("J" ++ "/public/submit/" ++ "k" ++ "/")) :=
  ⟨(spec_C10
      { public_id := "p", protocol_key := "pk", external_user_id := "u",
        status := .QUEUED, testing_status := .inl .WAITING, task := "t",
        «namespace» := "ns", language := "", worker := "",
        last_queued_at := "", created_at := "" }
      { name := "t", «namespace» := "ns" }).1 rfl,
   (spec_C10
      { public_id := "p", protocol_key := "pk", external_user_id := "u",
        status := .QUEUED, testing_status := .inl .WAITING, task := "t",
        «namespace» := "ns", language := "", worker := "",
        last_queued_at := "", created_at := "" }
      { name := "t", «namespace» := "ns" }).2.1 rfl,
   ((spec_C10
      { public_id := "p", protocol_key := "pk", external_user_id := "u",
        status := .QUEUED, testing_status := .inl .WAITING, task := "t",
        «namespace» := "ns", language := "", worker := "",
        last_queued_at := "", created_at := "" }
      { name := "t", «namespace» := "ns", judge_client := some "J" }).2.2 "J" rfl).1.mpr rfl,
   ((spec_C10
      { public_id := "p", protocol_key := "pk", external_user_id := "u",
        status := .QUEUED, testing_status := .inl .WAITING, task := "t",
        «namespace» := "ns", language := "", worker := "",
        last_queued_at := "", created_at := "" }
      { name := "t", «namespace» := "ns", public_submit_key := some "k",
        judge_client := some "J" }).2.2 "J" rfl).2 "k" rfl⟩

/-!
## C7
-/

/-- C7: for every 2xx response to `submit` (and likewise `get_submit`)
whose body cannot be decoded into a `Submit`, the operation raises
`ProtocolCorruptedError` carrying both the fixed message and the raw
offending response text; a decodable 2xx response returns the decoded
`Submit` (with the client back-reference installed). -/
theorem spec_C7 (judge_url url : String) (decodeSubmit : String → Except String Submit)
    (r : Response) (h2xx : 200 ≤ r.status ∧ r.status < 300) :
    (∀ e, decodeSubmit r.text = .error e →
      submit_response judge_url url decodeSubmit r =
        .protocolCorrupted "Failed to parse response from the judge system" r.text ∧
      get_submit_response judge_url url decodeSubmit r =
        .protocolCorrupted "Failed to parse response from the judge system" r.text) ∧
    (∀ sub, decodeSubmit r.text = .ok sub →
      submit_response judge_url url decodeSubmit r =
        .ok { sub with judge_client := some judge_url } ∧
      get_submit_response judge_url url decodeSubmit r =
        .ok { sub with judge_client := some judge_url }) := by
  have hh : handle_exception judge_url url r = none :=
    handle_exception_eq_none _ _ _ (Or.inl (by omega))
  constructor
  · intro e he
    constructor <;> simp [submit_response, get_submit_response, hh, he]
  · intro sub hs
    constructor <;> simp [submit_response, get_submit_response, hh, hs]

/-- C7 witness: the theorem evaluated at a concrete 2xx response with a
failing decoder and with a succeeding decoder. -/
theorem spec_C7_witness :
    submit_response "J" "/api/submits/" (fun _ => .error "boom")
        { status := 200, json_detail := none, text := "garbage" } =
      .protocolCorrupted "Failed to parse response from the judge system" "garbage" ∧
    get_submit_response "J" "/api/submits/" (fun _ => .error "boom")
        { status := 200, json_detail := none, text := "garbage" } =
      .protocolCorrupted "Failed to parse response from the judge system" "garbage" :=
  (spec_C7 "J" "/api/submits/" (fun _ => .error "boom")
    { status := 200, json_detail := none, text := "garbage" } (by decide)).1 "boom" rfl

/-!
## C8
-/

/-- C8: unlike `submit`/`get_submit`, the operations `get_task`,
`update_task` and `create_task` do not guard response decoding: on a 2xx
response whose body fails to decode into a `Task`, the underlying
decoding exception propagates unchanged (`decodeError e` for the same
`e`), and none of the three ever produces `ProtocolCorruptedError`. -/
theorem spec_C8 (judge_url url : String) (decodeTask : String → Except String Task)
    (r : Response) :
    (200 ≤ r.status ∧ r.status < 300 →
      ∀ e, decodeTask r.text = .error e →
        get_task_response judge_url url decodeTask r = .decodeError e ∧
        update_task_response judge_url url decodeTask r = .decodeError e ∧
        create_task_response judge_url url decodeTask r = .decodeError e) ∧
    (∀ m p,
      get_task_response judge_url url decodeTask r ≠ .protocolCorrupted m p ∧
      update_task_response judge_url url decodeTask r ≠ .protocolCorrupted m p ∧
      create_task_response judge_url url decodeTask r ≠ .protocolCorrupted m p) := by
  constructor
  · intro h2 e he
    have hh : handle_exception judge_url url r = none :=
      handle_exception_eq_none _ _ _ (Or.inl (by omega))
    refine ⟨?_, ?_, ?_⟩ <;>
      simp [get_task_response, update_task_response, create_task_response, hh, he]
  · intro m p
    refine ⟨?_, ?_, ?_⟩ <;>
      cases hh : handle_exception judge_url url r <;>
      cases hd : decodeTask r.text <;>
      simp [get_task_response, update_task_response, create_task_response, hh, hd]

/-- C8 witness: the theorem evaluated at a concrete 2xx response whose
decoder fails, and the never-`ProtocolCorruptedError` part at a 404. -/
theorem spec_C8_witness :
    get_task_response "J" "/api/tasks/ns/t/" (fun _ => .error "validation")
        { status := 200, json_detail := none, text := "raw" } = .decodeError "validation" ∧
    update_task_response "J" "/api/tasks/ns/t/" (fun _ => .error "validation")
        { status := 200, json_detail := none, text := "raw" } = .decodeError "validation" ∧
    create_task_response "J" "/api/tasks/ns/" (fun _ => .error "validation")
        { status := 200, json_detail := none, text := "raw" } = .decodeError "validation" ∧
    get_task_response "J" "/api/tasks/ns/t/" (fun _ => .error "validation")
        { status := 404, json_detail := some "Not Found", text := "raw" } ≠
      .protocolCorrupted "m" "p" :=
  ⟨((spec_C8 "J" "/api/tasks/ns/t/" (fun _ => .error "validation")
      { status := 200, json_detail := none, text := "raw" }).1 (by decide) "validation" rfl).1,
   ((spec_C8 "J" "/api/tasks/ns/t/" (fun _ => .error "validation")
      { status := 200, json_detail := none, text := "raw" }).1 (by decide) "validation" rfl).2.1,
   ((spec_C8 "J" "/api/tasks/ns/" (fun _ => .error "validation")
      { status := 200, json_detail := none, text := "raw" }).1 (by decide) "validation" rfl).2.2,
   ((spec_C8 "J" "/api/tasks/ns/t/" (fun _ => .error "validation")
      { status := 404, json_detail := some "Not Found", text := "raw" }).2 "m" "p").1⟩

end Judge

namespace Judge

/-!
## C3 and C4: phase lemmas for `set_task_languages`

`set_task_languages` issues `adds_updates ++ deletes`; these lemmas
characterise each call kind within each phase.
-/

/-- The add/update phase restricted to adds: exactly the desired
languages whose id is absent from `ids`. -/
theorem phase1_filter_add (ns task : String) (ids : List String)
    (desired : List TaskLanguage) :
    ((desired.map (fun lang =>
        if ids.contains lang.language_id then ApiCall.update ns task lang
        else ApiCall.add ns task lang)).filter ApiCall.isAdd) =
      (desired.filter (fun l => !(ids.contains l.language_id))).map (ApiCall.add ns task) := by
  induction desired with
  | nil => rfl
  | cons d ds ih =>
    simp only [List.elem_eq_mem, decide_eq_true_eq] at ih
    by_cases h : d.language_id ∈ ids <;>
      simp [h, ApiCall.isAdd, ih]

/-- The add/update phase restricted to updates: exactly the desired
languages whose id is present in `ids`. -/
theorem phase1_filter_update (ns task : String) (ids : List String)
    (desired : List TaskLanguage) :
    ((desired.map (fun lang =>
        if ids.contains lang.language_id then ApiCall.update ns task lang
        else ApiCall.add ns task lang)).filter ApiCall.isUpdate) =
      (desired.filter (fun l => ids.contains l.language_id)).map (ApiCall.update ns task) := by
  induction desired with
  | nil => rfl
  | cons d ds ih =>
    simp only [List.elem_eq_mem, decide_eq_true_eq] at ih
    by_cases h : d.language_id ∈ ids <;>
      simp [h, ApiCall.isUpdate, ih]

/-- The add/update phase contains no deletes. -/
theorem phase1_filter_delete (ns task : String) (ids : List String)
    (desired : List TaskLanguage) :
    ((desired.map (fun lang =>
        if ids.contains lang.language_id then ApiCall.update ns task lang
        else ApiCall.add ns task lang)).filter ApiCall.isDelete) = [] := by
  rw [List.filter_eq_nil_iff]
  intro c hc
  rw [List.mem_map] at hc
  obtain ⟨l, -, rfl⟩ := hc
  by_cases h : l.language_id ∈ ids <;> simp [h, ApiCall.isDelete]

/-- Every call of the add/update phase is an add or an update. -/
theorem phase1_filter_addOrUpdate (ns task : String) (ids : List String)
    (desired : List TaskLanguage) :
    ((desired.map (fun lang =>
        if ids.contains lang.language_id then ApiCall.update ns task lang
        else ApiCall.add ns task lang)).filter ApiCall.isAddOrUpdate) =
      desired.map (fun lang =>
        if ids.contains lang.language_id then ApiCall.update ns task lang
        else ApiCall.add ns task lang) := by
  rw [List.filter_eq_self]
  intro c hc
  rw [List.mem_map] at hc
  obtain ⟨l, -, rfl⟩ := hc
  by_cases h : l.language_id ∈ ids <;>
    simp [h, ApiCall.isAddOrUpdate, ApiCall.isAdd, ApiCall.isUpdate]

/-- The delete phase contains no adds. -/
theorem phase2_filter_add (ns task : String) (xs : List TaskLanguage) :
    ((xs.map (fun l => ApiCall.delete ns task l.language_id)).filter ApiCall.isAdd) = [] := by
  induction xs with
  | nil => rfl
  | cons x xs ih => simp [ApiCall.isAdd, ih]

/-- The delete phase contains no updates. -/
theorem phase2_filter_update (ns task : String) (xs : List TaskLanguage) :
    ((xs.map (fun l => ApiCall.delete ns task l.language_id)).filter ApiCall.isUpdate) = [] := by
  induction xs with
  | nil => rfl
  | cons x xs ih => simp [ApiCall.isUpdate, ih]

/-- The delete phase contains no adds or updates. -/
theorem phase2_filter_addOrUpdate (ns task : String) (xs : List TaskLanguage) :
    ((xs.map (fun l => ApiCall.delete ns task l.language_id)).filter
      ApiCall.isAddOrUpdate) = [] := by
  induction xs with
  | nil => rfl
  | cons x xs ih => simp [ApiCall.isAddOrUpdate, ApiCall.isAdd, ApiCall.isUpdate, ih]

/-- Every call of the delete phase is a delete. -/
theorem phase2_filter_delete (ns task : String) (xs : List TaskLanguage) :
    ((xs.map (fun l => ApiCall.delete ns task l.language_id)).filter ApiCall.isDelete) =
      xs.map (fun l => ApiCall.delete ns task l.language_id) := by
  induction xs with
  | nil => rfl
  | cons x xs ih => simp [ApiCall.isDelete, ih]

/-- C3: `set_task_languages` performs exactly one add for each desired
language whose `language_id` is absent from the current id set, exactly
one update (with the full desired record) for each desired language whose
id is present, and exactly one delete for each current language whose id
is absent from the desired id set; the trace length shows there are no
other mutating calls; and an empty desired list produces exactly one
delete per current entry and nothing else. -/
theorem spec_C3 (ns task : String) (current desired : List TaskLanguage) :
    ((set_task_languages ns task current desired).filter ApiCall.isAdd =
      (desired.filter (fun l =>
        !((current.map (fun c => c.language_id)).contains l.language_id))).map
        (ApiCall.add ns task)) ∧
    ((set_task_languages ns task current desired).filter ApiCall.isUpdate =
      (desired.filter (fun l =>
        (current.map (fun c => c.language_id)).contains l.language_id)).map
        (ApiCall.update ns task)) ∧
    ((set_task_languages ns task current desired).filter ApiCall.isDelete =
      (current.filter (fun l =>
        !((desired.map (fun c => c.language_id)).contains l.language_id))).map
        (fun l => ApiCall.delete ns task l.language_id)) ∧
    ((set_task_languages ns task current desired).length =
      desired.length +
        (current.filter (fun l =>
          !((desired.map (fun c => c.language_id)).contains l.language_id))).length) ∧
    (desired = [] →
      set_task_languages ns task current desired =
        current.map (fun l => ApiCall.delete ns task l.language_id)) := by
  refine ⟨?_, ?_, ?_, ?_, ?_⟩
  · simp only [set_task_languages, List.filter_append]
    rw [phase1_filter_add, phase2_filter_add, List.append_nil]
  · simp only [set_task_languages, List.filter_append]
    rw [phase1_filter_update, phase2_filter_update, List.append_nil]
  · simp only [set_task_languages, List.filter_append]
    rw [phase1_filter_delete, phase2_filter_delete, List.nil_append]
  · simp [set_task_languages]
  · intro h
    subst h
    simp [set_task_languages]

/-- C3 witness: `current = [A], desired = []` deletes exactly `A` and
performs no adds or updates. -/
theorem spec_C3_witness :
    set_task_languages "ns" "t" [{ language_id := "A" }] [] =
      [ApiCall.delete "ns" "t" "A"] :=
  (spec_C3 "ns" "t" [{ language_id := "A" }] []).2.2.2.2 rfl

/-- C4: in every execution of `set_task_languages`, all add and update
calls are issued before any delete call: the call trace equals its
add/update part followed by its delete part. -/
theorem spec_C4 (ns task : String) (current desired : List TaskLanguage) :
    set_task_languages ns task current desired =
      (set_task_languages ns task current desired).filter ApiCall.isAddOrUpdate ++
        (set_task_languages ns task current desired).filter ApiCall.isDelete := by
  simp only [set_task_languages, List.filter_append]
  rw [phase1_filter_addOrUpdate, phase2_filter_addOrUpdate, phase1_filter_delete,
    phase2_filter_delete, List.append_nil, List.nil_append]

end Judge

namespace Judge

namespace JudgeClientIterator

/-!
## Step lemmas for `__next__`
-/

/-- `__next__` raises `StopIteration` when the offset has reached a
learned count. -/
theorem next_stop (fetch : Fetch α) (s : IterState α)
    (h1 : (s.offset : Int) ≥ s.count) (h2 : s.count ≠ -1) :
    next fetch s = (.stop, s, []) := by
  unfold next
  rw [if_pos ⟨h1, h2⟩]

/-- The refill block does nothing while the page still has unread items. -/
theorem refill_no (fetch : Fetch α) (s : IterState α)
    (h : s.data_offset < s.data.length) :
    refill fetch s = (s, []) := by
  unfold refill
  rw [if_neg (by omega)]

/-- The refill block fetches at the current offset when the page is
exhausted. -/
theorem refill_yes (fetch : Fetch α) (s : IterState α)
    (h : s.data_offset ≥ s.data.length) :
    refill fetch s =
      ({ s with
          count := ((fetch s.offset).1 : Int)
          data := (fetch s.offset).2
          data_offset := 0 },
        [s.offset]) := by
  unfold refill
  rw [if_pos h]

/-- The indexing tail of `__next__` yields the addressed row. -/
theorem emit_some (s1 : IterState α) (log : List Nat) (row : α)
    (h : s1.data[s1.data_offset]? = some row) :
    emit s1 log =
      (.item row,
        { s1 with offset := s1.offset + 1, data_offset := s1.data_offset + 1 }, log) := by
  unfold emit
  rw [h]

/-- `__next__` without a refetch: the page has an unread item; it is
yielded and both offsets advance. -/
theorem next_item_nofetch (fetch : Fetch α) (s : IterState α) (row : α)
    (hgo : ¬((s.offset : Int) ≥ s.count ∧ s.count ≠ -1))
    (hfull : s.data_offset < s.data.length)
    (hrow : s.data[s.data_offset]? = some row) :
    next fetch s =
      (.item row,
        { s with offset := s.offset + 1, data_offset := s.data_offset + 1 }, []) := by
  unfold next
  rw [if_neg hgo, refill_no _ _ hfull]
  exact emit_some _ _ _ hrow

/-- `__next__` with a refetch: the page is exhausted, a fetch at the
current offset installs a new count and page, and the new page's first
row is yielded. -/
theorem next_item_fetch (fetch : Fetch α) (s : IterState α) (row : α)
    (hgo : ¬((s.offset : Int) ≥ s.count ∧ s.count ≠ -1))
    (hexh : s.data_offset ≥ s.data.length)
    (hrow : (fetch s.offset).2[0]? = some row) :
    next fetch s =
      (.item row,
        { offset := s.offset + 1, data_offset := 1,
          count := ((fetch s.offset).1 : Int), data := (fetch s.offset).2 },
        [s.offset]) := by
  unfold next
  rw [if_neg hgo, refill_yes _ _ hexh]
  exact emit_some _ _ _ hrow

/-- One-step unfolding of the consumption loop. -/
theorem runIter_succ (fetch : Fetch α) (s : IterState α) (fuel : Nat) :
    runIter fetch s (fuel + 1) =
      match next fetch s with
      | (.stop, _, log) => { items := [], fetches := log, ending := .clean }
      | (.indexError, _, log) => { items := [], fetches := log, ending := .crash }
      | (.item a, s2, log) =>
        { items := a :: (runIter fetch s2 fuel).items,
          fetches := log ++ (runIter fetch s2 fuel).fetches,
          ending := (runIter fetch s2 fuel).ending } := rfl

/-- The loop after a `StopIteration` step. -/
theorem runIter_step_stop (fetch : Fetch α) {s s2 : IterState α} {log : List Nat}
    (fuel : Nat) (h : next fetch s = (.stop, s2, log)) :
    runIter fetch s (fuel + 1) = { items := [], fetches := log, ending := .clean } := by
  rw [runIter_succ, h]

/-- The loop after an item-yielding step. -/
theorem runIter_step_item (fetch : Fetch α) {s s2 : IterState α} {log : List Nat} {a : α}
    (fuel : Nat) (h : next fetch s = (.item a, s2, log)) :
    runIter fetch s (fuel + 1) =
      { items := a :: (runIter fetch s2 fuel).items,
        fetches := log ++ (runIter fetch s2 fuel).fetches,
        ending := (runIter fetch s2 fuel).ending } := by
  rw [runIter_succ, h]

/-!
## Page arithmetic for the server-backed fetch
-/

/-- The page fetched at `pstart` has length `min P (L.length - pstart)`. -/
theorem page_length (L : List α) (P pstart : Nat) :
    ((L.drop pstart).take P).length = min P (L.length - pstart) := by
  simp

/-- Indexing into a fetched page reads the underlying list. -/
theorem page_getElem? (L : List α) (P pstart i : Nat) (hiP : i < P)
    (hlen : pstart + i < L.length) :
    ((L.drop pstart).take P)[i]? = some (L.get ⟨pstart + i, hlen⟩) := by
  rw [List.getElem?_take, if_pos hiP, List.getElem?_drop,
    List.getElem?_eq_getElem hlen]
  simp [List.get_eq_getElem]

end JudgeClientIterator

end Judge

namespace Judge

namespace JudgeClientIterator

/-- Invariant run lemma: from a state in the middle of the page fetched
at `pstart` (cursor `dOff`, offset `pstart + dOff`, learned count), with
`n` items left, consuming the iterator backed by `serverFetch L P` yields
exactly the remaining items `L.drop (pstart + dOff)`, refetching once at
each subsequent page boundary, and ends with `StopIteration`. -/
theorem runIter_page (L : List α) (P : Nat) (hP : 0 < P) :
    ∀ (n pstart dOff : Nat),
      pstart + dOff + n = L.length →
      dOff ≤ ((L.drop pstart).take P).length →
      runIter (serverFetch L P)
        { offset := pstart + dOff, data_offset := dOff, count := (L.length : Int),
          data := (L.drop pstart).take P } (n + 1)
      = { items := L.drop (pstart + dOff),
          fetches := List.range' (pstart + P) ((dOff + n + P - 1) / P - 1) P,
          ending := .clean } := by
  intro n
  induction n with
  | zero =>
    intro pstart dOff hsum hle
    have hpl := page_length L P pstart
    have hstop : next (serverFetch L P)
        ({ offset := pstart + dOff, data_offset := dOff, count := (L.length : Int),
           data := (L.drop pstart).take P } : IterState α) =
        (.stop, _, []) :=
      next_stop _ _ (by simp only []; omega) (by simp only []; omega)
    rw [runIter_step_stop _ 0 hstop]
    have hdrop : L.drop (pstart + dOff) = [] := by
      have : pstart + dOff = L.length := by omega
      rw [this, List.drop_length]
    have hj : (dOff + 0 + P - 1) / P - 1 = 0 := by
      have hlt : (dOff + 0 + P - 1) / P < 2 := by
        rw [Nat.div_lt_iff_lt_mul hP]
        omega
      omega
    rw [hdrop, hj]
    rfl
  | succ n ih =>
    intro pstart dOff hsum hle
    have hpl := page_length L P pstart
    have hoff : pstart + dOff < L.length := by omega
    by_cases hfull : dOff < ((L.drop pstart).take P).length
    · -- within the page: no fetch
      have hrow : ((L.drop pstart).take P)[dOff]? =
          some (L.get ⟨pstart + dOff, hoff⟩) :=
        page_getElem? L P pstart dOff (by omega) hoff
      have hnext : next (serverFetch L P)
          ({ offset := pstart + dOff, data_offset := dOff, count := (L.length : Int),
             data := (L.drop pstart).take P } : IterState α) =
          (.item (L.get ⟨pstart + dOff, hoff⟩),
           { offset := pstart + dOff + 1, data_offset := dOff + 1,
             count := (L.length : Int), data := (L.drop pstart).take P }, []) :=
        next_item_nofetch _ _ _ (by rintro ⟨h1, -⟩; simp only [] at h1; omega)
          hfull hrow
      rw [runIter_step_item _ (n + 1) hnext]
      have ih2 := ih pstart (dOff + 1) (by omega) (by omega)
      rw [show pstart + (dOff + 1) = pstart + dOff + 1 from by omega] at ih2
      rw [ih2]
      have harith : dOff + 1 + n = dOff + (n + 1) := by omega
      rw [harith]
      have hcons : L.drop (pstart + dOff) =
          L.get ⟨pstart + dOff, hoff⟩ :: L.drop (pstart + dOff + 1) :=
        List.drop_eq_getElem_cons hoff
      rw [hcons, List.nil_append]
    · -- page exhausted: fetch at the current offset
      have hdlen : dOff = ((L.drop pstart).take P).length := by omega
      have hdP : dOff = P := by omega
      have hrow : (serverFetch L P (pstart + dOff)).2[0]? =
          some (L.get ⟨pstart + dOff, hoff⟩) := by
        have h0 := page_getElem? L P (pstart + dOff) 0 hP (by omega)
        simpa using h0
      have hnext : next (serverFetch L P)
          ({ offset := pstart + dOff, data_offset := dOff, count := (L.length : Int),
             data := (L.drop pstart).take P } : IterState α) =
          (.item (L.get ⟨pstart + dOff, hoff⟩),
           { offset := pstart + dOff + 1, data_offset := 1,
             count := ((serverFetch L P (pstart + dOff)).1 : Int),
             data := (serverFetch L P (pstart + dOff)).2 }, [pstart + dOff]) :=
        next_item_fetch _ _ _ (by rintro ⟨h1, -⟩; simp only [] at h1; omega)
          hdlen.ge hrow
      rw [runIter_step_item _ (n + 1) hnext]
      have ih2 := ih (pstart + dOff) 1 (by omega)
        (by rw [page_length]; omega)
      rw [show pstart + dOff + 1 = pstart + dOff + 1 from rfl] at ih2
      have hfetch1 : ((serverFetch L P (pstart + dOff)).1 : Int) = (L.length : Int) := rfl
      have hfetch2 : (serverFetch L P (pstart + dOff)).2 =
          (L.drop (pstart + dOff)).take P := rfl
      rw [hfetch1, hfetch2, ih2]
      have harith1 : (1 + n + P - 1) / P - 1 = n / P := by
        rw [show 1 + n + P - 1 = n + P from by omega, Nat.add_div_right _ hP,
          Nat.succ_sub_one]
      have harith2 : (dOff + (n + 1) + P - 1) / P - 1 = n / P + 1 := by
        rw [hdP, show P + (n + 1) + P - 1 = n + P + P from by omega,
          Nat.add_div_right _ hP, Nat.add_div_right _ hP, Nat.succ_sub_one]
      rw [harith1, harith2]
      have hcons : L.drop (pstart + dOff) =
          L.get ⟨pstart + dOff, hoff⟩ :: L.drop (pstart + dOff + 1) :=
        List.drop_eq_getElem_cons hoff
      rw [hcons]
      rw [show pstart + P = pstart + dOff from by omega]
      rw [List.range'_succ]
      rfl

end JudgeClientIterator

end Judge

namespace Judge

namespace JudgeClientIterator

/-- Consuming a freshly constructed iterator at start offset `k < N`
backed by `serverFetch L P` yields `L.drop k`, fetching exactly at
offsets `k, k + P, k + 2P, …` (that is `⌈(N - k) / P⌉` fetches), and ends
with `StopIteration`. -/
theorem runIter_from_init (L : List α) (P k : Nat) (hP : 0 < P) (hk : k < L.length) :
    runIter (serverFetch L P) (init k) (L.length - k + 1) =
      { items := L.drop k,
        fetches := List.range' k ((L.length - k + P - 1) / P) P,
        ending := .clean } := by
  have hrow : (serverFetch L P k).2[0]? = some (L.get ⟨k, hk⟩) := by
    have h0 := page_getElem? L P k 0 hP (by omega)
    simpa using h0
  have hnext : next (serverFetch L P) (init k : IterState α) =
      (.item (L.get ⟨k, hk⟩),
       { offset := k + 1, data_offset := 1,
         count := ((serverFetch L P k).1 : Int), data := (serverFetch L P k).2 },
       [k]) :=
    next_item_fetch _ _ _ (by rintro ⟨-, h2⟩; exact h2 rfl) (by simp [init]) hrow
  obtain ⟨m, hm⟩ : ∃ m, L.length - k = m + 1 := ⟨L.length - k - 1, by omega⟩
  rw [hm, runIter_step_item _ (m + 1) hnext]
  have hfetch1 : ((serverFetch L P k).1 : Int) = (L.length : Int) := rfl
  have hfetch2 : (serverFetch L P k).2 = (L.drop k).take P := rfl
  rw [hfetch1, hfetch2]
  have ih2 := runIter_page L P hP m k 1 (by omega) (by rw [page_length]; omega)
  rw [ih2]
  have harith1 : (1 + m + P - 1) / P - 1 = m / P := by
    rw [show 1 + m + P - 1 = m + P from by omega, Nat.add_div_right _ hP,
      Nat.succ_sub_one]
  have harith2 : (m + 1 + P - 1) / P = m / P + 1 := by
    rw [show m + 1 + P - 1 = m + P from by omega, Nat.add_div_right _ hP]
  rw [harith1, harith2, List.range'_succ, List.drop_eq_getElem_cons hk]
  rfl

end JudgeClientIterator

/-!
## C2
-/

/-- C2 (amended): for every total count `N ≥ 1` and page size `P ≥ 1`,
consuming a `JudgeClientIterator` constructed at offset 0 to exhaustion
yields exactly the `N` items in server order, fetching exactly at offsets
`0, P, 2P, …` (one refetch per exhausted page, at the current offset),
for `⌈N / P⌉ = (N + P - 1) / P` fetch calls in total, and ends with
`StopIteration` once the running offset reaches the learned count. For
`N = 0` (or `P = 0`) the first advance instead fetches once and raises
`IndexError` (see the counterexample). -/
theorem spec_C2 (α : Type) (L : List α) (P : Nat) (hP : 0 < P) (hL : L ≠ []) :
    JudgeClientIterator.runIter (serverFetch L P) (JudgeClientIterator.init 0)
        (L.length + 1) =
      { items := L, fetches := List.range' 0 ((L.length + P - 1) / P) P,
        ending := .clean } ∧
    (List.range' 0 ((L.length + P - 1) / P) P).length = (L.length + P - 1) / P := by
  have h0 : 0 < L.length := List.length_pos.mpr hL
  have h := JudgeClientIterator.runIter_from_init L P 0 hP h0
  rw [Nat.sub_zero, List.drop_zero] at h
  exact ⟨h, by simp⟩

/-- C2 counterexample to the claim as stated: with total count `N = 0`
(empty result set) and page size 1, the claimed behaviour would be zero
fetches and a clean stop, but the code performs one fetch at offset 0 and
raises `IndexError`; likewise a degenerate page size `P = 0` crashes on a
nonempty result set. -/
theorem spec_C2_cex :
    JudgeClientIterator.runIter (serverFetch ([] : List Nat) 1)
        (JudgeClientIterator.init 0) 1 =
      { items := [], fetches := [0], ending := .crash } ∧
    JudgeClientIterator.runIter (serverFetch [42] 0)
        (JudgeClientIterator.init 0) 2 =
      { items := [], fetches := [0], ending := .crash } := by
  refine ⟨by decide, by decide⟩

/-- C2 witness: three items with page size two — both pages fetched at
offsets 0 and 2, all items yielded in order, clean stop. -/
theorem spec_C2_witness :
    JudgeClientIterator.runIter (serverFetch [10, 20, 30] 2)
        (JudgeClientIterator.init 0) 4 =
      { items := [10, 20, 30], fetches := List.range' 0 2 2,
        ending := .clean } ∧
    (List.range' 0 2 2).length = 2 :=
  spec_C2 Nat [10, 20, 30] 2 (by decide) (by decide)

end Judge

namespace Judge

namespace JudgeClientIterator

/-- The indexing tail of `__next__` never changes the fetch log or the
learned count. -/
theorem emit_log_count (s1 : IterState α) (log : List Nat) :
    (emit s1 log).2.2 = log ∧ ((emit s1 log).2.1).count = s1.count := by
  unfold emit
  rcases hrow : s1.data[s1.data_offset]? with - | row <;> exact ⟨rfl, rfl⟩

/-- The first `__next__` on a fresh iterator fetches exactly once, at the
construction offset, and installs the fetched count. -/
theorem next_init (fetch : Fetch α) (off : Nat) :
    (next fetch (init off)).2.2 = [off] ∧
    ((next fetch (init off)).2.1).count = ((fetch off).1 : Int) := by
  unfold next
  rw [if_neg (by rintro ⟨-, h2⟩; exact h2 rfl),
    refill_yes fetch (init off) (by simp [init])]
  exact ⟨(emit_log_count _ _).1, (emit_log_count _ _).2⟩

end JudgeClientIterator

/-!
## C6
-/

/-- C6: constructing a `JudgeClientIterator` performs no fetch (`init` is
pure state `⟨offset, 0, -1, []⟩`, recorded by the last conjunct: the
count is the unlearned sentinel `-1`, and no fetch log is attached to
construction in this model); the total count is learned on the first size
query (first conjunct: one fetch, at the construction offset) or the
first advance (fourth and fifth conjuncts), whichever happens first, and
is cached so that a size query on any state with a learned count — in
particular after a first size query or first advance — issues no further
fetch (second and third conjuncts). -/
theorem spec_C6 (α : Type) (fetch : Fetch α) (off : Nat) (s : IterState α)
    (hs : s.count ≠ -1) :
    JudgeClientIterator.length_query fetch (JudgeClientIterator.init off) =
      ((fetch off).1,
       { offset := off, data_offset := 0, count := ((fetch off).1 : Int),
         data := (fetch off).2 }, [off]) ∧
    JudgeClientIterator.length_query fetch s = (s.count.toNat, s, []) ∧
    (JudgeClientIterator.length_query fetch
      (JudgeClientIterator.length_query fetch (JudgeClientIterator.init off)).2.1).2.2 =
      [] ∧
    (JudgeClientIterator.next fetch (JudgeClientIterator.init off)).2.2 = [off] ∧
    ((JudgeClientIterator.next fetch (JudgeClientIterator.init off)).2.1).count =
      ((fetch off).1 : Int) ∧
    (JudgeClientIterator.init off : IterState α).count = -1 := by
  have hq : JudgeClientIterator.length_query fetch (JudgeClientIterator.init off) =
      ((fetch off).1,
       { offset := off, data_offset := 0, count := ((fetch off).1 : Int),
         data := (fetch off).2 }, [off]) := rfl
  have hcached : ∀ s2 : IterState α, s2.count ≠ -1 →
      JudgeClientIterator.length_query fetch s2 = (s2.count.toNat, s2, []) := by
    intro s2 hs2
    unfold JudgeClientIterator.length_query
    rw [if_neg hs2]
  refine ⟨hq, hcached s hs, ?_, (JudgeClientIterator.next_init fetch off).1,
    (JudgeClientIterator.next_init fetch off).2, rfl⟩
  rw [hq]
  rw [hcached _ (by simp only []; omega)]

end Judge

namespace Judge

/-- C6 witness: the theorem evaluated at a concrete fetch function and a
concrete already-learned state. -/
theorem spec_C6_witness :
    JudgeClientIterator.length_query (fun o => (5, [o])) (JudgeClientIterator.init 3) =
      (5, { offset := 3, data_offset := 0, count := (5 : Int), data := [3] }, [3]) ∧
    JudgeClientIterator.length_query (fun o => (5, [o]))
        ({ offset := 2, data_offset := 1, count := 4, data := [9] } : IterState Nat) =
      (4, { offset := 2, data_offset := 1, count := 4, data := [9] }, []) ∧
    (JudgeClientIterator.length_query (fun o => (5, [o]))
      (JudgeClientIterator.length_query (fun o => (5, [o]))
        (JudgeClientIterator.init 3)).2.1).2.2 = ([] : List Nat) ∧
    (JudgeClientIterator.next (fun o => (5, [o])) (JudgeClientIterator.init 3)).2.2 =
      [3] ∧
    ((JudgeClientIterator.next (fun o => (5, [o])) (JudgeClientIterator.init 3)).2.1).count =
      (5 : Int) ∧
    (JudgeClientIterator.init 3 : IterState Nat).count = -1 :=
  spec_C6 Nat (fun o => (5, [o])) 3
    { offset := 2, data_offset := 1, count := 4, data := [9] } (by decide)

/-!
## C9
-/

/-- C9 (amended): for every iterator constructed at start offset
`k < N` (with positive page size), a size query returns the server's
total count `N`, full iteration yields exactly the items from position
`k` onward (ending cleanly, fetching at `k, k + P, …`), the reported
length equals the number of yielded items plus `k`, and the two agree
exactly when `k = 0`. For `k ≥ N` the size query still returns `N` but
full iteration raises `IndexError` instead of yielding zero items (see
the counterexample). -/
theorem spec_C9 (α : Type) (L : List α) (P k : Nat) (hP : 0 < P) (hk : k < L.length) :
    (JudgeClientIterator.length_query (serverFetch L P)
      (JudgeClientIterator.init k)).1 = L.length ∧
    JudgeClientIterator.runIter (serverFetch L P) (JudgeClientIterator.init k)
        (L.length - k + 1) =
      { items := L.drop k,
        fetches := List.range' k ((L.length - k + P - 1) / P) P,
        ending := .clean } ∧
    L.length = (L.drop k).length + k ∧
    ((L.drop k).length = L.length ↔ k = 0) := by
  refine ⟨rfl, JudgeClientIterator.runIter_from_init L P k hP hk, ?_, ?_⟩
  · rw [List.length_drop]
    omega
  · rw [List.length_drop]
    constructor <;> intro h <;> omega

/-- C9 counterexample to the claim as stated: at start offset `k = N`
(here `N = 1`), the claim would have the iterator report length 1 and
yield zero items; the code reports length 1 but the first advance fetches
an empty page and raises `IndexError`. -/
theorem spec_C9_cex :
    (JudgeClientIterator.length_query (serverFetch [7] 1)
      (JudgeClientIterator.init 1)).1 = 1 ∧
    JudgeClientIterator.runIter (serverFetch [7] 1) (JudgeClientIterator.init 1) 2 =
      { items := ([] : List Nat), fetches := [1], ending := .crash } := by
  refine ⟨by decide, by decide⟩

/-- C9 witness: offset 1 into a three-item result set with page size 2:
length reports 3, iteration yields the two items from position 1 on. -/
theorem spec_C9_witness :
    (JudgeClientIterator.length_query (serverFetch [10, 20, 30] 2)
      (JudgeClientIterator.init 1)).1 = 3 ∧
    JudgeClientIterator.runIter (serverFetch [10, 20, 30] 2)
        (JudgeClientIterator.init 1) 3 =
      { items := [20, 30], fetches := List.range' 1 1 2, ending := .clean } ∧
    (3 : Nat) = [20, 30].length + 1 ∧
    ([20, 30].length = 3 ↔ (1 : Nat) = 0) :=
  spec_C9 Nat [10, 20, 30] 2 1 (by decide) (by decide)

end Judge
